import Mathlib

/-
  Verification development for the user_activity_analyzer repository.

  Shallow embedding of the classification-and-aggregation pipeline:
  constants.py, helpers.py, user_classifier.py, db_writer.py,
  activity_loader.py.  Python dictionaries become structures, Python
  exceptions become Except results, and the sqlite3 connection becomes an
  explicit state record threaded through the writer operations.
-/

namespace UserActivityAnalyzer

deriving instance DecidableEq for Except

/- ---------------------------------------------------------------- -/
/- constants.py                                                      -/
/- ---------------------------------------------------------------- -/

def CATEGORY_ACTIVE : String := "ACTIVE"

def CATEGORY_DORMANT : String := "DORMANT"

def CATEGORY_INACTIVE : String := "INACTIVE"

def THRESHOLD_ACTIVE_DAYS : Int := 7

def THRESHOLD_DORMANT_DAYS : Int := 30

def ERROR_CODE_DATABASE_ERROR : String := "DB_001"

def ERROR_CODE_VALIDATION_ERROR : String := "VAL_001"

def ERROR_CODE_INVALID_DATE : String := "DATE_001"

def ERROR_CODE_USER_NOT_FOUND : String := "USER_001"

/- ---------------------------------------------------------------- -/
/- Python value model for loosely typed arguments                    -/
/- ---------------------------------------------------------------- -/

/-- Model of the dynamically typed values that reach validate_user_id:
an int, a str, None, or any other object. -/
inductive PyValue where
  | int (n : Int)
  | str (s : String)
  | pynone
  | other
deriving DecidableEq, Repr

/-- Accumulate the value of a digit run in which single underscores may
appear between digits, as in the Python int() literal grammar: an
underscore must be followed by a digit (so it is never trailing and
never doubled), and the caller guarantees the first character is a
digit (so it is never leading). -/
def pyDigitsGo (acc : Nat) : List Char → Option Nat
  | [] => some acc
  | c :: rest =>
    if c.isDigit then pyDigitsGo (acc * 10 + (c.toNat - 48)) rest
    else if c = '_' then
      match rest with
      | [] => none
      | d :: _ => if d.isDigit then pyDigitsGo acc rest else none
    else none

/-- A digit run per the Python int() grammar: nonempty, starts with a
digit, underscores only singly between digits. -/
def pyParseDigits (cs : List Char) : Option Nat :=
  match cs with
  | [] => none
  | c :: _ => if c.isDigit then pyDigitsGo 0 cs else none

/-- Strip the surrounding whitespace of a character list, as the
whitespace stripping that the Python int() applies to its argument. -/
def pyStripChars (cs : List Char) : List Char :=
  ((cs.dropWhile Char.isWhitespace).reverse.dropWhile Char.isWhitespace).reverse

/-- Model of the Python builtin int() on a string: surrounding
whitespace is stripped, an optional sign is accepted, and the rest must
be a digit run (with optional single underscores between digits); any
other shape raises ValueError, modelled as none. -/
def pyStrToInt (s : String) : Option Int :=
  match pyStripChars s.data with
  | '+' :: rest => (pyParseDigits rest).map (fun n => (n : Int))
  | '-' :: rest => (pyParseDigits rest).map (fun n => -(n : Int))
  | cs => (pyParseDigits cs).map (fun n => (n : Int))

/- ---------------------------------------------------------------- -/
/- helpers.py                                                        -/
/- ---------------------------------------------------------------- -/

/-- helpers.validate_user_id: None is rejected; an int is valid iff
positive; a str is valid iff int() parses it to a positive value
(ValueError from int() yields False); everything else is rejected. -/
def validate_user_id : PyValue → Bool
  | .pynone => false
  | .int n => decide (0 < n)
  | .str s =>
    match pyStrToInt s with
    | some n => decide (0 < n)
    | none => false
  | .other => false

/-- helpers.categorize_user: negative day counts (future login) are
ACTIVE; then the two inclusive thresholds split ACTIVE / DORMANT /
INACTIVE. -/
def categorize_user (days_since_login : Int) : String :=
  if days_since_login < 0 then CATEGORY_ACTIVE
  else if days_since_login ≤ THRESHOLD_ACTIVE_DAYS then CATEGORY_ACTIVE
  else if days_since_login ≤ THRESHOLD_DORMANT_DAYS then CATEGORY_DORMANT
  else CATEGORY_INACTIVE

/-- Model of a Python datetime at microsecond resolution: wallUs is the
naive wall-clock reading as microseconds since the epoch, and
tzOffsetUs is the attached UTC offset in microseconds (none for a naive
datetime). -/
structure PyDatetime where
  wallUs : Int
  tzOffsetUs : Option Int
deriving DecidableEq, Repr

def usPerDay : Int := 86400000000

/-- helpers.convert_datetime_to_days_difference: a None reference falls
back to now (aware UTC); a naive datetime has tzinfo replaced by UTC
keeping its wall-clock reading; the aware difference subtracts the UTC
instants (wall minus offset); timedelta.days is the floor of the exact
duration in whole days, i.e. floor division of the microsecond
difference by one day. -/
def convert_datetime_to_days_difference (last_login : PyDatetime)
    (reference_time : Option PyDatetime) (now_utc : PyDatetime) : Int :=
  let reference_time := reference_time.getD now_utc
  let last_login :=
    if last_login.tzOffsetUs = none then { last_login with tzOffsetUs := some 0 } else last_login
  let reference_time :=
    if reference_time.tzOffsetUs = none then { reference_time with tzOffsetUs := some 0 }
    else reference_time
  Int.fdiv ((reference_time.wallUs - reference_time.tzOffsetUs.getD 0) -
    (last_login.wallUs - last_login.tzOffsetUs.getD 0)) usPerDay

/-- The UTC instant of a datetime, treating a naive value as already
UTC.  Written from the specification wording for the refinement claim
about day differences. -/
def spec_to_utc_us (d : PyDatetime) : Int := d.wallUs - d.tzOffsetUs.getD 0

/-- Floor of the elapsed duration in whole days between two instants
normalized to UTC.  Written from the specification wording. -/
def spec_floor_days_between (last_login reference_instant : PyDatetime) : Int :=
  Int.fdiv (spec_to_utc_us reference_instant - spec_to_utc_us last_login) usPerDay

/-- helpers.validate_timestamp restricted to the datetime-typed call
site in classify_user: isinstance(timestamp, datetime) holds, so the
result is True. -/
def validate_timestamp_dt (_ : PyDatetime) : Bool := true

/-- The classified-user dictionary.  Optional fields mirror dict.get
access: category is some s when the key is present with value s. -/
structure UserDict where
  user_id : PyValue
  last_login : Option PyDatetime
  days_since_login : Option Int
  category : Option String
deriving DecidableEq, Repr

/- ---------------------------------------------------------------- -/
/- user_classifier.py                                                -/
/- ---------------------------------------------------------------- -/

/-- UserClassifier.classify_user with the reference_time fixed at
construction.  An invalid user id raises ValueError (modelled as an
error carrying the message).  A None last_login short-circuits to the
INACTIVE dictionary with days_since_login None.  Otherwise the
timestamp check (always true on a datetime) passes, the day difference
is computed against the reference time (which is always supplied, so
the now fallback inside the conversion is unreachable and the reference
itself is passed for it), and the category comes from categorize_user. -/
def classify_user (reference_time : PyDatetime) (user_id : PyValue)
    (last_login : Option PyDatetime) : Except String UserDict :=
  if !(validate_user_id user_id) then .error "Invalid user ID"
  else
    match last_login with
    | none =>
      .ok { user_id := user_id, last_login := none, days_since_login := none,
            category := some "INACTIVE" }
    | some ll =>
      if !(validate_timestamp_dt ll) then .error "Invalid timestamp"
      else
        let days := convert_datetime_to_days_difference ll (some reference_time) reference_time
        .ok { user_id := user_id, last_login := some ll, days_since_login := some days,
              category := some (categorize_user days) }

/-- UserClassifier.classify_users: the loop appends each classification
in input order; the first raised exception aborts the whole call with
no list returned. -/
def classify_users (reference_time : PyDatetime)
    (users : List (PyValue × Option PyDatetime)) : Except String (List UserDict) :=
  match users with
  | [] => .ok []
  | (user_id, last_login) :: rest =>
    match classify_user reference_time user_id last_login with
    | .error e => .error e
    | .ok c =>
      match classify_users reference_time rest with
      | .error e => .error e
      | .ok cs => .ok (c :: cs)

/- ---------------------------------------------------------------- -/
/- helpers.build_summary_statistics                                  -/
/- ---------------------------------------------------------------- -/

/-- The summary dictionary returned by build_summary_statistics. -/
structure SummaryStats where
  total_users : Nat
  active_count : Nat
  dormant_count : Nat
  inactive_count : Nat
  oldest_last_login : Option PyDatetime
deriving DecidableEq, Repr

/-- Python comparison of two datetimes by their instants.  Both naive
or both aware compares exactly as in Python (a mixed pair raises
TypeError there; the pipeline normalizes to UTC so the mixed case is
modelled as the same UTC comparison). -/
def pyDtLt (a b : PyDatetime) : Bool :=
  decide (a.wallUs - a.tzOffsetUs.getD 0 < b.wallUs - b.tzOffsetUs.getD 0)

/-- The oldest-login scan of build_summary_statistics: keep the least
non-None last_login seen, first occurrence winning ties.  A datetime is
always truthy in Python, so the if last_login test is an is-not-None
test. -/
def oldestLoginFold (user_categories : List UserDict) : Option PyDatetime :=
  user_categories.foldl
    (fun oldest u =>
      match u.last_login with
      | none => oldest
      | some l =>
        match oldest with
        | none => some l
        | some o => if pyDtLt l o then some l else oldest)
    none

/-- helpers.build_summary_statistics: the empty input returns the
all-zero summary early; otherwise each count tallies entries whose
category equals the corresponding label, total_users is the input
length, and oldest_last_login is the minimum non-None login. -/
def build_summary_statistics (user_categories : List UserDict) : SummaryStats :=
  if user_categories.isEmpty then
    { total_users := 0, active_count := 0, dormant_count := 0, inactive_count := 0,
      oldest_last_login := none }
  else
    { total_users := user_categories.length
      active_count := user_categories.countP (fun u => u.category == some CATEGORY_ACTIVE)
      dormant_count := user_categories.countP (fun u => u.category == some CATEGORY_DORMANT)
      inactive_count := user_categories.countP (fun u => u.category == some CATEGORY_INACTIVE)
      oldest_last_login := oldestLoginFold user_categories }

/- ---------------------------------------------------------------- -/
/- db_writer.py                                                      -/
/- ---------------------------------------------------------------- -/

/-- The two exception classes that cross the writer: a raw
sqlite3.Error from the driver, or the DatabaseWriterError wrapper
carrying its machine-readable error_code. -/
inductive PyExn where
  | sqliteError
  | databaseWriterError (error_code : String)
deriving DecidableEq, Repr

/-- One row of the inactive_log table.  last_login is stored through
isoformat(); the textual rendering is not modelled, the instant is kept. -/
structure LogRow where
  user_id : PyValue
  last_login : Option PyDatetime
  days_since_login : Option Int
  logged_at : PyDatetime
deriving DecidableEq, Repr

/-- The sqlite3 connection state: committed rows of inactive_log,
pending rows inserted but not yet committed, whether an explicit
transaction is open, whether the table exists, and an instrumentation
counter of executed BEGIN TRANSACTION statements. -/
structure DBState where
  committed : List LogRow
  pending : List LogRow
  inTransaction : Bool
  tableExists : Bool
  beginCount : Nat
deriving DecidableEq, Repr

/-- connection.commit(): pending rows become durable and any open
transaction closes. -/
def DBState.commit (st : DBState) : DBState :=
  { st with committed := st.committed ++ st.pending, pending := [], inTransaction := false }

/-- connection.rollback(): pending rows are discarded and any open
transaction closes. -/
def DBState.rollback (st : DBState) : DBState :=
  { st with pending := [], inTransaction := false }

/-- execute("BEGIN TRANSACTION"): sqlite raises an sqlite3.Error when a
transaction is already open; otherwise the transaction opens and the
instrumentation counter advances. -/
def DBState.beginTransaction (st : DBState) : Except PyExn DBState :=
  if st.inTransaction then .error .sqliteError
  else .ok { st with inTransaction := true, beginCount := st.beginCount + 1 }

/-- DatabaseWriter.ensure_inactive_log_table: CREATE TABLE IF NOT
EXISTS followed by connection.commit().  Creation is modelled as always
succeeding; faults are injected at INSERT statements, which is where
the claims place them. -/
def ensure_inactive_log_table (st : DBState) : DBState :=
  DBState.commit { st with tableExists := true }

/-- DatabaseWriter.log_inactive_user: one INSERT into inactive_log,
stamped with the instant of the write.  insert_ok says whether the
driver accepts the INSERT; a driver fault (sqlite3.Error) is caught
here and re-raised as DatabaseWriterError with the default error code,
leaving the connection unchanged. -/
def log_inactive_user (st : DBState) (insert_ok : Bool) (now_utc : PyDatetime)
    (user_id : PyValue) (last_login : Option PyDatetime) (days_since_login : Option Int) :
    Except PyExn DBState :=
  if insert_ok then
    .ok { st with
          pending := st.pending ++
            [{ user_id := user_id, last_login := last_login,
               days_since_login := days_since_login, logged_at := now_utc }] }
  else .error (.databaseWriterError ERROR_CODE_DATABASE_ERROR)

/-- The row that one log_inactive_user call inserts for a classified
user at a given write instant. -/
def logRowOf (now_utc : PyDatetime) (u : UserDict) : LogRow :=
  { user_id := u.user_id, last_login := u.last_login,
    days_since_login := u.days_since_login, logged_at := now_utc }

/-- The for-loop of log_inactive_users: inserts the filtered users in
order, numbering the INSERT attempts from k so insert_ok can target one
of them; an exception carries the connection state reached so far. -/
def logInactiveLoop (now_utc : PyDatetime) (insert_ok : Nat → Bool) (k : Nat)
    (st : DBState) : List UserDict → Except (PyExn × DBState) DBState
  | [] => .ok st
  | u :: rest =>
    match log_inactive_user st (insert_ok k) now_utc u.user_id u.last_login
        u.days_since_login with
    | .ok st1 => logInactiveLoop now_utc insert_ok (k + 1) st1 rest
    | .error e => .error (e, st)

/-- DatabaseWriter.log_inactive_users: ensure the table, filter to
category INACTIVE, return 0 early on an empty filtered set; otherwise
BEGIN TRANSACTION (when use_transaction), insert each row, commit and
return the count.  The except clause catches only sqlite3.Error: that
branch rolls back and wraps into DatabaseWriterError, while a
DatabaseWriterError raised by log_inactive_user propagates unhandled
with the connection state as it stands. -/
def log_inactive_users (st : DBState) (insert_ok : Nat → Bool) (now_utc : PyDatetime)
    (classified_users : List UserDict) (use_transaction : Bool) :
    Except (PyExn × DBState) (Nat × DBState) :=
  let st := ensure_inactive_log_table st
  let inactive_users := classified_users.filter (fun u => u.category == some CATEGORY_INACTIVE)
  if inactive_users.isEmpty then .ok (0, st)
  else
    match (if use_transaction then st.beginTransaction else .ok st) with
    | .error _ =>
      -- BEGIN raising sqlite3.Error is caught by the except clause
      .error (.databaseWriterError ERROR_CODE_DATABASE_ERROR,
        if use_transaction then st.rollback else st)
    | .ok st1 =>
      match logInactiveLoop now_utc insert_ok 0 st1 inactive_users with
      | .ok st2 =>
        .ok (inactive_users.length, if use_transaction then st2.commit else st2)
      | .error (.sqliteError, st2) =>
        -- caught: rollback, then raise the wrapper
        .error (.databaseWriterError ERROR_CODE_DATABASE_ERROR,
          if use_transaction then st2.rollback else st2)
      | .error (.databaseWriterError c, st2) =>
        -- not an sqlite3.Error: the except clause does not match, no rollback
        .error (.databaseWriterError c, st2)

/- ---------------------------------------------------------------- -/
/- activity_loader.py                                                -/
/- ---------------------------------------------------------------- -/

/-- ActivityLoaderError with its machine-readable error_code; the
constructor default is ERROR_CODE_DATABASE_ERROR. -/
structure ActivityLoaderError where
  error_code : String
deriving DecidableEq, Repr

/-- ActivityLoader.load_user_last_login over a users table modelled as
rows of (user_id, nullable last_login).  A textual column value is
parsed by parse_timestamp in the source; no claim exercises that
branch, so the column is modelled at the instant level.  fetchone on
the keyed SELECT is the first row matching user_id; a missing row
raises ActivityLoaderError with the DEFAULT error code (the not-found
branch passes no explicit code); a NULL login returns None. -/
def load_user_last_login (users_table : List (Int × Option PyDatetime)) (user_id : Int) :
    Except ActivityLoaderError (Option PyDatetime) :=
  match users_table.find? (fun row => row.1 == user_id) with
  | none => .error { error_code := ERROR_CODE_DATABASE_ERROR }
  | some row => .ok row.2

/- ---------------------------------------------------------------- -/
/- Theorems                                                          -/
/- ---------------------------------------------------------------- -/

/-- C2: for every integer d, the category assigned from
days_since_login d is ACTIVE iff d is at most 7 (negative d included),
DORMANT iff d lies between 8 and 30 inclusive, and INACTIVE iff d
exceeds 30. -/
theorem categorize_user_boundaries (d : Int) :
    (categorize_user d = CATEGORY_ACTIVE ↔ d ≤ 7) ∧
    (categorize_user d = CATEGORY_DORMANT ↔ 8 ≤ d ∧ d ≤ 30) ∧
    (categorize_user d = CATEGORY_INACTIVE ↔ 30 < d) := by
  unfold categorize_user CATEGORY_ACTIVE CATEGORY_DORMANT CATEGORY_INACTIVE
    THRESHOLD_ACTIVE_DAYS THRESHOLD_DORMANT_DAYS
  split_ifs with h1 h2 h3 <;> refine ⟨?_, ?_, ?_⟩ <;> constructor <;> intro h <;>
    first
      | rfl
      | omega
      | (exact absurd h (by decide))

/-- C6: the day difference equals the floor of the elapsed duration in
whole days after normalizing both instants to UTC, a naive value being
treated as already UTC, and a duration of 7 days 23 hours yields 7. -/
theorem convert_days_is_floor_of_utc_difference (last ref now : PyDatetime) :
    convert_datetime_to_days_difference last (some ref) now = spec_floor_days_between last ref ∧
    convert_datetime_to_days_difference ⟨0, some 0⟩
      (some ⟨(7 * 24 + 23) * 3600 * 1000000, some 0⟩) now = 7 := by
  constructor
  · cases last with
    | mk lw lo =>
      cases ref with
      | mk rw ro =>
        cases lo <;> cases ro <;>
          simp [convert_datetime_to_days_difference, spec_floor_days_between, spec_to_utc_us]
  · rfl

/-- C4: a single-user lookup miss raises ActivityLoaderError carrying
the DEFAULT storage-fault code DB_001, not a code distinct from it
(ERROR_CODE_USER_NOT_FOUND is defined but unused), while an existing
user with a NULL login returns None without error.  Evaluates the code
at the failing input of the code_bug finding. -/
theorem load_user_last_login_miss_uses_storage_code :
    load_user_last_login [(1, none)] 2 = .error { error_code := ERROR_CODE_DATABASE_ERROR } ∧
    ERROR_CODE_DATABASE_ERROR ≠ ERROR_CODE_USER_NOT_FOUND ∧
    load_user_last_login [(1, none)] 1 = .ok none := by
  refine ⟨rfl, by decide, rfl⟩

/-- C1: a storage fault on the second INSERT of a two-row inactive
batch makes log_inactive_users propagate the DatabaseWriterError raised
by log_inactive_user without executing the rollback (the except clause
matches only sqlite3.Error), leaving the transaction open with the
first row still pending on the connection — not the rolled-back,
zero-row state the claim requires.  Evaluates the code at the failing
input of the code_bug finding. -/
theorem log_inactive_users_fault_skips_rollback :
    log_inactive_users ⟨[], [], false, false, 0⟩ (fun k => decide (k = 0)) ⟨0, some 0⟩
        [⟨PyValue.int 3, none, none, some "INACTIVE"⟩,
         ⟨PyValue.int 4, none, none, some "INACTIVE"⟩] true
      = .error (.databaseWriterError ERROR_CODE_DATABASE_ERROR,
          ⟨[], [⟨PyValue.int 3, none, none, ⟨0, some 0⟩⟩], true, true, 1⟩) ∧
    (⟨[], [⟨PyValue.int 3, none, none, ⟨0, some 0⟩⟩], true, true, 1⟩ : DBState).inTransaction
      = true ∧
    (⟨[], [⟨PyValue.int 3, none, none, ⟨0, some 0⟩⟩], true, true, 1⟩ : DBState).pending.length
      = 1 := by
  refine ⟨by decide, rfl, rfl⟩

/-- C5 counterexample: the identifier "5" is a string, not a positive
integer, yet validate_user_id accepts it and classify_user succeeds
instead of raising the invalid-id error — so rejection does not happen
exactly on non-positive-integer identifiers. -/
theorem classify_user_accepts_numeric_string :
    validate_user_id (PyValue.str "5") = true ∧
    classify_user ⟨0, some 0⟩ (PyValue.str "5") none =
      .ok { user_id := PyValue.str "5", last_login := none, days_since_login := none,
            category := some "INACTIVE" } := by
  refine ⟨by decide, by decide⟩

/-- C5 amended: classify_user raises the invalid-id error exactly when
validate_user_id rejects the identifier, and validate_user_id accepts
exactly the positive integers together with the strings that the
Python int() parses to a positive integer (the string is kept as a
string in the result, not coerced); None and any other object are
rejected. -/
theorem classify_user_invalid_id_exactly (ref : PyDatetime) (uid : PyValue)
    (ll : Option PyDatetime) :
    ((∃ e, classify_user ref uid ll = .error e) ↔ validate_user_id uid = false) ∧
    (validate_user_id uid = true ↔
      ((∃ n : Int, uid = PyValue.int n ∧ 0 < n) ∨
       (∃ s : String, ∃ n : Int, uid = PyValue.str s ∧ pyStrToInt s = some n ∧ 0 < n))) := by
  constructor
  · by_cases hv : validate_user_id uid
    · simp only [hv]
      constructor
      · rintro ⟨e, he⟩
        cases ll with
        | none => simp [classify_user, hv] at he
        | some l => simp [classify_user, hv, validate_timestamp_dt] at he
      · intro hfalse
        exact absurd hfalse (by decide)
    · simp only [Bool.not_eq_true] at hv
      simp only [hv]
      exact ⟨fun _ => trivial, fun _ => ⟨"Invalid user ID", by simp [classify_user, hv]⟩⟩
  · cases uid with
    | int n =>
      simp only [validate_user_id, decide_eq_true_eq]
      constructor
      · intro h
        exact Or.inl ⟨n, rfl, h⟩
      · rintro (⟨m, hm, hpos⟩ | ⟨s, m, hs, hparse, hpos⟩)
        · injection hm with hnm
          subst hnm
          exact hpos
        · exact absurd hs (by simp)
    | str s =>
      simp only [validate_user_id]
      cases hp : pyStrToInt s with
      | none =>
        simp only []
        constructor
        · intro h
          exact absurd h (by simp)
        · rintro (⟨m, hm, hpos⟩ | ⟨t, m, ht, hparse, hpos⟩)
          · exact absurd hm (by simp)
          · injection ht with hst
            subst hst
            rw [hp] at hparse
            exact absurd hparse (by simp)
      | some m =>
        simp only [decide_eq_true_eq]
        constructor
        · intro h
          exact Or.inr ⟨s, m, rfl, hp, h⟩
        · rintro (⟨k, hk, hpos⟩ | ⟨t, k, ht, hparse, hpos⟩)
          · exact absurd hk (by simp)
          · injection ht with hst
            subst hst
            rw [hp] at hparse
            injection hparse with hmk
            subst hmk
            exact hpos
    | pynone =>
      simp [validate_user_id]
    | other =>
      simp [validate_user_id]

/-- C7: with a valid identifier, classifying a user whose last_login is
None yields the INACTIVE category with days_since_login None (a fourth
tier is never produced), and in every successful classification
days_since_login is None exactly when last_login is None. -/
theorem classify_user_never_logged_in (ref : PyDatetime) (uid : PyValue) :
    (validate_user_id uid = true →
      classify_user ref uid none =
        .ok { user_id := uid, last_login := none, days_since_login := none,
              category := some CATEGORY_INACTIVE }) ∧
    (∀ ll c, classify_user ref uid ll = .ok c →
      (c.days_since_login = none ↔ c.last_login = none)) := by
  constructor
  · intro h
    simp [classify_user, h, CATEGORY_INACTIVE]
  · intro ll c hc
    by_cases hv : validate_user_id uid
    · cases ll with
      | none =>
        simp only [classify_user, hv, Bool.not_true, Bool.false_eq_true, if_false] at hc
        cases hc
        simp
      | some l =>
        simp only [classify_user, hv, validate_timestamp_dt, Bool.not_true,
          Bool.false_eq_true, if_false] at hc
        cases hc
        simp
    · simp [classify_user, hv] at hc

/-- C7 witness: the theorem applied at user id 1 with no login and the
epoch reference instant. -/
theorem classify_user_never_logged_in_witness :
    classify_user ⟨0, some 0⟩ (PyValue.int 1) none =
      .ok { user_id := PyValue.int 1, last_login := none, days_since_login := none,
            category := some CATEGORY_INACTIVE } ∧
    ((none : Option Int) = none ↔ (none : Option PyDatetime) = none) := by
  refine ⟨(classify_user_never_logged_in ⟨0, some 0⟩ (PyValue.int 1)).1 (by decide), ?_⟩
  exact (classify_user_never_logged_in ⟨0, some 0⟩ (PyValue.int 1)).2 none
    { user_id := PyValue.int 1, last_login := none, days_since_login := none,
      category := some CATEGORY_INACTIVE } (by decide)

/-- C9: on an input with no INACTIVE entry, log_inactive_users returns
0 having inserted no row, and it executes no BEGIN TRANSACTION: the
resulting connection state is exactly the one ensure_inactive_log_table
leaves, whose committed rows gain nothing beyond what was already
pending, whose BEGIN counter is unchanged, and which holds no open
transaction. -/
theorem log_inactive_users_no_inactive_noop (st : DBState) (insert_ok : Nat → Bool)
    (now : PyDatetime) (rows : List UserDict) (use_transaction : Bool)
    (h : ∀ u ∈ rows, u.category ≠ some CATEGORY_INACTIVE) :
    log_inactive_users st insert_ok now rows use_transaction =
      .ok (0, ensure_inactive_log_table st) ∧
    (ensure_inactive_log_table st).beginCount = st.beginCount ∧
    (ensure_inactive_log_table st).committed = st.committed ++ st.pending ∧
    (ensure_inactive_log_table st).pending = [] ∧
    (ensure_inactive_log_table st).inTransaction = false := by
  have hf : rows.filter (fun u => u.category == some CATEGORY_INACTIVE) = [] := by
    rw [List.filter_eq_nil_iff]
    intro u hu
    simpa using h u hu
  refine ⟨?_, rfl, rfl, rfl, rfl⟩
  unfold log_inactive_users
  simp [hf]

/-- C9 witness: the theorem applied to a one-element batch whose entry
is ACTIVE, on a fresh connection. -/
theorem log_inactive_users_no_inactive_noop_witness :
    log_inactive_users ⟨[], [], false, false, 0⟩ (fun _ => true) ⟨0, some 0⟩
        [⟨PyValue.int 1, none, none, some "ACTIVE"⟩] true =
      .ok (0, ensure_inactive_log_table ⟨[], [], false, false, 0⟩) ∧
    (ensure_inactive_log_table ⟨[], [], false, false, 0⟩).beginCount = 0 ∧
    (ensure_inactive_log_table ⟨[], [], false, false, 0⟩).committed = [] ++ [] ∧
    (ensure_inactive_log_table ⟨[], [], false, false, 0⟩).pending = [] ∧
    (ensure_inactive_log_table ⟨[], [], false, false, 0⟩).inTransaction = false :=
  log_inactive_users_no_inactive_noop ⟨[], [], false, false, 0⟩ (fun _ => true) ⟨0, some 0⟩
    [⟨PyValue.int 1, none, none, some "ACTIVE"⟩] true (by decide)

/-- The per-category counts of a list of user dictionaries: at most one
of the three labels matches each entry, so the three counts sum to at
most the length. -/
theorem countP_categories_le (rows : List UserDict) :
    rows.countP (fun u => u.category == some CATEGORY_ACTIVE) +
      rows.countP (fun u => u.category == some CATEGORY_DORMANT) +
      rows.countP (fun u => u.category == some CATEGORY_INACTIVE) ≤ rows.length := by
  simp only [CATEGORY_ACTIVE, CATEGORY_DORMANT, CATEGORY_INACTIVE]
  induction rows with
  | nil => simp
  | cons u rest ih =>
    by_cases hA : u.category = some "ACTIVE" <;>
    by_cases hD : u.category = some "DORMANT" <;>
    by_cases hI : u.category = some "INACTIVE" <;>
    simp [List.countP_cons, hA, hD, hI] <;>
    omega

/-- The three per-category counts sum to the length exactly when every
entry carries one of the three labels. -/
theorem countP_categories_eq_iff (rows : List UserDict) :
    (rows.countP (fun u => u.category == some CATEGORY_ACTIVE) +
      rows.countP (fun u => u.category == some CATEGORY_DORMANT) +
      rows.countP (fun u => u.category == some CATEGORY_INACTIVE) = rows.length) ↔
    ∀ u ∈ rows, u.category = some CATEGORY_ACTIVE ∨ u.category = some CATEGORY_DORMANT ∨
      u.category = some CATEGORY_INACTIVE := by
  simp only [CATEGORY_ACTIVE, CATEGORY_DORMANT, CATEGORY_INACTIVE]
  induction rows with
  | nil => simp
  | cons u rest ih =>
    have hle := countP_categories_le rest
    simp only [CATEGORY_ACTIVE, CATEGORY_DORMANT, CATEGORY_INACTIVE] at hle
    by_cases hA : u.category = some "ACTIVE" <;>
    by_cases hD : u.category = some "DORMANT" <;>
    by_cases hI : u.category = some "INACTIVE" <;>
    simp [List.countP_cons, hA, hD, hI, ← ih] <;>
    omega

/-- The summary fields in terms of the input list: total_users is the
length and each count tallies the entries whose category equals the
matching label. -/
theorem build_summary_statistics_fields (rows : List UserDict) :
    (build_summary_statistics rows).total_users = rows.length ∧
    (build_summary_statistics rows).active_count =
      rows.countP (fun u => u.category == some CATEGORY_ACTIVE) ∧
    (build_summary_statistics rows).dormant_count =
      rows.countP (fun u => u.category == some CATEGORY_DORMANT) ∧
    (build_summary_statistics rows).inactive_count =
      rows.countP (fun u => u.category == some CATEGORY_INACTIVE) := by
  cases rows with
  | nil => simp [build_summary_statistics]
  | cons u rest => simp [build_summary_statistics]

/-- C10: for every input list, total_users is the input length, each
per-category count tallies exactly the entries whose category equals
that label, and the three counts sum to total_users exactly when every
entry carries one of the three labels (an entry with any other
category is counted in total_users but in no per-category count). -/
theorem build_summary_statistics_counts_exact (rows : List UserDict) :
    (build_summary_statistics rows).total_users = rows.length ∧
    (build_summary_statistics rows).active_count =
      rows.countP (fun u => u.category == some CATEGORY_ACTIVE) ∧
    (build_summary_statistics rows).dormant_count =
      rows.countP (fun u => u.category == some CATEGORY_DORMANT) ∧
    (build_summary_statistics rows).inactive_count =
      rows.countP (fun u => u.category == some CATEGORY_INACTIVE) ∧
    ((build_summary_statistics rows).active_count +
        (build_summary_statistics rows).dormant_count +
        (build_summary_statistics rows).inactive_count =
        (build_summary_statistics rows).total_users ↔
      ∀ u ∈ rows, u.category = some CATEGORY_ACTIVE ∨ u.category = some CATEGORY_DORMANT ∨
        u.category = some CATEGORY_INACTIVE) := by
  obtain ⟨ht, ha, hd, hi⟩ := build_summary_statistics_fields rows
  refine ⟨ht, ha, hd, hi, ?_⟩
  rw [ht, ha, hd, hi]
  exact countP_categories_eq_iff rows

/-- C8: whenever classify_users returns a list, it has the length of
the input and its i-th element is the classification of the i-th input
pair; and whenever some element has an invalid user id the whole call
raises, returning no partial list. -/
theorem classify_users_order_and_atomic (ref : PyDatetime)
    (users : List (PyValue × Option PyDatetime)) :
    (∀ cs, classify_users ref users = .ok cs →
      cs.length = users.length ∧
      ∀ i (h1 : i < users.length) (h2 : i < cs.length),
        classify_user ref (users.get ⟨i, h1⟩).1 (users.get ⟨i, h1⟩).2 =
          .ok (cs.get ⟨i, h2⟩)) ∧
    ((∃ p ∈ users, validate_user_id p.1 = false) →
      ∃ e, classify_users ref users = .error e) := by
  induction users with
  | nil =>
    constructor
    · intro cs hcs
      simp only [classify_users] at hcs
      cases hcs
      exact ⟨rfl, fun i h1 _ => absurd h1 (Nat.not_lt_zero i)⟩
    · rintro ⟨p, hp, _⟩
      exact absurd hp (by simp)
  | cons ud rest ih =>
    obtain ⟨uid, ll⟩ := ud
    constructor
    · intro cs hcs
      unfold classify_users at hcs
      cases hcu : classify_user ref uid ll with
      | error e =>
        rw [hcu] at hcs
        simp at hcs
      | ok c =>
        rw [hcu] at hcs
        cases hrest : classify_users ref rest with
        | error e =>
          rw [hrest] at hcs
          simp at hcs
        | ok cs0 =>
          rw [hrest] at hcs
          simp at hcs
          subst hcs
          obtain ⟨hlen, hidx⟩ := ih.1 cs0 hrest
          refine ⟨by simp [hlen], ?_⟩
          intro i h1 h2
          cases i with
          | zero => exact hcu
          | succ j =>
            have h1r : j < rest.length := by
              simp only [List.length_cons] at h1
              omega
            have h2r : j < cs0.length := by
              simp only [List.length_cons] at h2
              omega
            exact hidx j h1r h2r
    · rintro ⟨p, hp, hpv⟩
      rcases List.mem_cons.mp hp with hph | hpt
      · subst hph
        refine ⟨"Invalid user ID", ?_⟩
        unfold classify_users
        simp [classify_user, hpv]
      · obtain ⟨e, he⟩ := ih.2 ⟨p, hpt, hpv⟩
        cases hcu : classify_user ref uid ll with
        | error e2 =>
          refine ⟨e2, ?_⟩
          unfold classify_users
          rw [hcu]
        | ok c =>
          refine ⟨e, ?_⟩
          unfold classify_users
          rw [hcu, he]

/-- C8 witness: the theorem applied to a concrete valid list (length
preservation) and to a concrete list whose second element has user id
0 (atomic failure). -/
theorem classify_users_order_and_atomic_witness :
    ([{ user_id := PyValue.int 1, last_login := none, days_since_login := none,
        category := some "INACTIVE" }] : List UserDict).length =
      ([((PyValue.int 1 : PyValue), (none : Option PyDatetime))]).length ∧
    ∃ e, classify_users ⟨0, some 0⟩ [(PyValue.int 1, none), (PyValue.int 0, none)] =
      .error e := by
  constructor
  · exact ((classify_users_order_and_atomic ⟨0, some 0⟩ [(PyValue.int 1, none)]).1
      [{ user_id := PyValue.int 1, last_login := none, days_since_login := none,
         category := some "INACTIVE" }] (by decide)).1
  · exact (classify_users_order_and_atomic ⟨0, some 0⟩
      [(PyValue.int 1, none), (PyValue.int 0, none)]).2
      ⟨(PyValue.int 0, none), by simp, by decide⟩

/-- categorize_user always returns one of the three labels. -/
theorem categorize_user_mem_three (d : Int) :
    categorize_user d = CATEGORY_ACTIVE ∨ categorize_user d = CATEGORY_DORMANT ∨
      categorize_user d = CATEGORY_INACTIVE := by
  unfold categorize_user
  split_ifs <;> simp

/-- A successful single classification carries one of the three labels. -/
theorem classify_user_ok_category (ref : PyDatetime) (uid : PyValue)
    (ll : Option PyDatetime) (c : UserDict) (h : classify_user ref uid ll = .ok c) :
    c.category = some CATEGORY_ACTIVE ∨ c.category = some CATEGORY_DORMANT ∨
      c.category = some CATEGORY_INACTIVE := by
  by_cases hv : validate_user_id uid
  · cases ll with
    | none =>
      simp only [classify_user, hv, Bool.not_true, Bool.false_eq_true, if_false] at h
      cases h
      exact Or.inr (Or.inr rfl)
    | some l =>
      simp only [classify_user, hv, validate_timestamp_dt, Bool.not_true,
        Bool.false_eq_true, if_false] at h
      cases h
      rcases categorize_user_mem_three
          (convert_datetime_to_days_difference l (some ref) ref) with h1 | h1 | h1 <;>
        simp [h1]
  · simp [classify_user, hv] at h

/-- Every element of a successful batch classification carries one of
the three labels. -/
theorem classify_users_ok_categories (ref : PyDatetime)
    (users : List (PyValue × Option PyDatetime)) (cs : List UserDict)
    (h : classify_users ref users = .ok cs) :
    ∀ c ∈ cs, c.category = some CATEGORY_ACTIVE ∨ c.category = some CATEGORY_DORMANT ∨
      c.category = some CATEGORY_INACTIVE := by
  induction users generalizing cs with
  | nil =>
    simp only [classify_users] at h
    cases h
    simp
  | cons ud rest ih =>
    obtain ⟨uid, ll⟩ := ud
    unfold classify_users at h
    cases hcu : classify_user ref uid ll with
    | error e =>
      rw [hcu] at h
      simp at h
    | ok c0 =>
      rw [hcu] at h
      cases hrest : classify_users ref rest with
      | error e =>
        rw [hrest] at h
        simp at h
      | ok cs0 =>
        rw [hrest] at h
        simp at h
        subst h
        intro c hc
        rcases List.mem_cons.mp hc with rfl | hmem
        · exact classify_user_ok_category ref uid ll c hcu
        · exact ih cs0 hrest c hmem

/-- The insert loop with a fault-free driver appends one pending row
per filtered user, in order, and succeeds. -/
theorem logInactiveLoop_all_ok (now : PyDatetime) (l : List UserDict) :
    ∀ k st, logInactiveLoop now (fun _ => true) k st l =
      .ok { st with pending := st.pending ++ l.map (logRowOf now) } := by
  induction l with
  | nil =>
    intro k st
    simp [logInactiveLoop]
  | cons u rest ih =>
    intro k st
    simp [logInactiveLoop, log_inactive_user, logRowOf, ih (k + 1)]

/-- A fault-free log_inactive_users returns the number of INACTIVE
entries of its input. -/
theorem log_inactive_users_all_ok (st : DBState) (now : PyDatetime)
    (rows : List UserDict) :
    ∃ st2, log_inactive_users st (fun _ => true) now rows true =
      .ok (rows.countP (fun u => u.category == some CATEGORY_INACTIVE), st2) := by
  by_cases hfe : rows.filter (fun u => u.category == some CATEGORY_INACTIVE) = []
  · refine ⟨ensure_inactive_log_table st, ?_⟩
    unfold log_inactive_users
    simp [hfe, List.countP_eq_length_filter]
  · have hne : (rows.filter (fun u => u.category == some CATEGORY_INACTIVE)).isEmpty
        = false := by
      cases hfl : rows.filter (fun u => u.category == some CATEGORY_INACTIVE) with
      | nil => exact absurd hfl hfe
      | cons a l => rfl
    refine ⟨DBState.mk
      (st.committed ++ st.pending ++
        (rows.filter (fun u => u.category == some CATEGORY_INACTIVE)).map (logRowOf now))
      [] false true (st.beginCount + 1), ?_⟩
    unfold log_inactive_users
    rw [List.countP_eq_length_filter]
    simp only [hne, Bool.false_eq_true, if_false, ensure_inactive_log_table,
      DBState.commit, DBState.beginTransaction, logInactiveLoop_all_ok, if_true,
      List.nil_append]

/-- C3: for every batch the classifier completes, the summary counts
for the three tiers sum to total_users, total_users is the number of
classified users, and a fault-free inactive-log write reports exactly
inactive_count rows written. -/
theorem classified_summary_matches_log_count (ref now : PyDatetime) (st : DBState)
    (users : List (PyValue × Option PyDatetime)) (cs : List UserDict)
    (h : classify_users ref users = .ok cs) :
    (build_summary_statistics cs).active_count + (build_summary_statistics cs).dormant_count +
        (build_summary_statistics cs).inactive_count =
      (build_summary_statistics cs).total_users ∧
    (build_summary_statistics cs).total_users = cs.length ∧
    ∃ st2, log_inactive_users st (fun _ => true) now cs true =
      .ok ((build_summary_statistics cs).inactive_count, st2) := by
  obtain ⟨ht, ha, hd, hi⟩ := build_summary_statistics_fields cs
  have hall := classify_users_ok_categories ref users cs h
  refine ⟨?_, ht, ?_⟩
  · rw [ht, ha, hd, hi]
    exact (countP_categories_eq_iff cs).mpr hall
  · rw [hi]
    exact log_inactive_users_all_ok st now cs

/-- C3 witness: the theorem applied to the one-user batch whose login
is at the reference instant, classified ACTIVE, on a fresh connection. -/
theorem classified_summary_matches_log_count_witness :
    (build_summary_statistics
        [⟨PyValue.int 1, some ⟨0, some 0⟩, some 0, some "ACTIVE"⟩]).active_count +
      (build_summary_statistics
        [⟨PyValue.int 1, some ⟨0, some 0⟩, some 0, some "ACTIVE"⟩]).dormant_count +
      (build_summary_statistics
        [⟨PyValue.int 1, some ⟨0, some 0⟩, some 0, some "ACTIVE"⟩]).inactive_count =
      (build_summary_statistics
        [⟨PyValue.int 1, some ⟨0, some 0⟩, some 0, some "ACTIVE"⟩]).total_users ∧
    (build_summary_statistics
        [⟨PyValue.int 1, some ⟨0, some 0⟩, some 0, some "ACTIVE"⟩]).total_users =
      ([⟨PyValue.int 1, some ⟨0, some 0⟩, some 0, some "ACTIVE"⟩] : List UserDict).length ∧
    ∃ st2, log_inactive_users ⟨[], [], false, false, 0⟩ (fun _ => true) ⟨0, some 0⟩
        [⟨PyValue.int 1, some ⟨0, some 0⟩, some 0, some "ACTIVE"⟩] true =
      .ok ((build_summary_statistics
        [⟨PyValue.int 1, some ⟨0, some 0⟩, some 0, some "ACTIVE"⟩]).inactive_count, st2) :=
  classified_summary_matches_log_count ⟨0, some 0⟩ ⟨0, some 0⟩ ⟨[], [], false, false, 0⟩
    [(PyValue.int 1, some ⟨0, some 0⟩)]
    [⟨PyValue.int 1, some ⟨0, some 0⟩, some 0, some "ACTIVE"⟩] (by decide)

end UserActivityAnalyzer
